import Mathlib

/-!
Verification of the Math Mentor AI agent pipeline (repository
`Ashwadhama2004/mL-project`, directory `math-mentor-ai`).

The development shallowly embeds the confidence-aggregation, escalation,
retrieval, solver-fallback and memory-store logic of the pipeline, as quoted
in `docs/Source_Code_Documentation.md` and the project README, and proves or
refutes the frozen claims about it.  Python floats are modelled as `ℚ`,
Python dictionaries of heterogeneous JSON values as small inductive types,
and external generative/embedding calls as explicit outcome parameters.
-/

namespace MathMentor

/-! ## Confidence aggregation

`agents/solver_agent.py`, quoted in `docs/Source_Code_Documentation.md`
(section 2.2, "Confidence Calculation"):

    confidence_factors = {
        "rag_coverage": 0.9 if has_context else 0.3,
        "citation_quality": 0.9 if has_citations else 0.4,
        "llm_confidence": float(solution.get("confidence", 0.7)),
        "has_verification": 0.9 if verified else 0.6
    }
    final_confidence = sum(confidence_factors.values()) / len(confidence_factors)
-/

/-- The four values of the `confidence_factors` dictionary, in insertion
order: retrieval coverage, citation quality, generative self-reported
confidence, arithmetic-verification outcome. -/
def confidence_factors (rag_coverage citation_quality llm_confidence has_verification : ℚ) :
    List ℚ :=
  [rag_coverage, citation_quality, llm_confidence, has_verification]

/-- `final_confidence = sum(confidence_factors.values()) / len(confidence_factors)`. -/
def aggregate_confidence (rag_coverage citation_quality llm_confidence has_verification : ℚ) :
    ℚ :=
  (confidence_factors rag_coverage citation_quality llm_confidence has_verification).sum /
    ((confidence_factors rag_coverage citation_quality llm_confidence has_verification).length : ℚ)

/-- `SolverAgent._calculate_confidence`: the discrete factor levels feeding the
aggregation. -/
def calculate_confidence (has_context has_citations : Bool) (llm_conf : ℚ) (verified : Bool) :
    ℚ :=
  aggregate_confidence
    (if has_context then 9/10 else 3/10)
    (if has_citations then 9/10 else 4/10)
    llm_conf
    (if verified then 9/10 else 6/10)

/-- The aggregation as the claim words it (for comparison only): a fixed
weighted mean with default weights retrieval 0.25, citation 0.20,
generative 0.30, verification 0.25. -/
def spec_weighted_confidence (rag_coverage citation_quality llm_confidence has_verification : ℚ) :
    ℚ :=
  25/100 * rag_coverage + 20/100 * citation_quality +
    30/100 * llm_confidence + 25/100 * has_verification

/-! ## Generative self-reported confidence coercion

README ("Challenge 2: Unhashable Type Error in Confidence Calculation") and
`docs/Source_Code_Documentation.md` section 5.2:

    llm_conf = solution_json.get("confidence", 0.7)
    if isinstance(llm_conf, (list, tuple)):
        llm_conf = float(llm_conf[0]) if llm_conf else 0.7
    elif not isinstance(llm_conf, (int, float)):
        llm_conf = 0.7
-/

/-- The JSON value found (or not) under the `"confidence"` key of the
generative step's structured output: a number (`int`/`float`), a collection
(`list`/`tuple`) of numbers, any non-numeric value (string, dict, `None`,
...), or an absent key. -/
inductive LLMConfValue where
  | num (q : ℚ)
  | coll (xs : List ℚ)
  | other
  | missing

/-- The type coercion applied to the generative self-reported confidence.
`missing` takes the `.get` default `0.7`; an empty collection is falsy, so the
guard `if llm_conf` routes it to `0.7`; a non-empty collection is reduced to
`float` of its first element; any other non-numeric value becomes `0.7`. -/
def coerce_llm_conf : LLMConfValue → ℚ
  | .num q => q
  | .coll [] => 7/10
  | .coll (x :: _) => x
  | .other => 7/10
  | .missing => 7/10

/-- The same coercion with Python's indexing made explicit: `llm_conf[0]` is a
fallible operation (`none` = `IndexError`), taken only behind the truthiness
guard. -/
def coerce_llm_conf_checked : LLMConfValue → Option ℚ
  | .num q => some q
  | .coll xs => if xs.isEmpty then some (7/10) else xs.head?
  | .other => some (7/10)
  | .missing => some (7/10)

end MathMentor

namespace MathMentor

/-! ## Solution records and the solver fallback cascade

`agents/solver_agent.py` error handling, quoted in
`docs/Source_Code_Documentation.md` section 5.1:

    try:
        solution = self.llm.generate_json(prompt)
    except Exception as json_error:
        # Fallback to text generation
        text_response = self.llm.generate(prompt)
        solution = self._parse_text_response(text_response)
-/

/-- The Solution record produced by the Solver stage. -/
structure Solution where
  answer_text : String
  reasoning_steps : List String
  citations : List String
  self_reported_confidence : ℚ
  used_memory : Bool
deriving DecidableEq

/-- Modelled from the spec: the final rung of the fallback cascade.  The
repository snapshot quotes only the structured-to-free-text fallback of
`SolverAgent.solve`; per spec section 4.5 and 7, when the laxer free-text
extraction also fails the Solver returns a zero-confidence placeholder
Solution with an explicit "could not solve" answer instead of raising. -/
def placeholder_solution : Solution :=
  { answer_text := "could not solve"
    reasoning_steps := []
    citations := []
    self_reported_confidence := 0
    used_memory := false }

/-- The Solver's fallback cascade.  The two external generative attempts
(structured `generate_json` parse, then free-text `generate` plus the laxer
`_parse_text_response` extraction) enter as `Option` outcomes: `none` means
that attempt raised or was unparsable.  The cascade itself is a total
function into `Solution` — no error escapes it. -/
def solve_with_fallback (structured freetext : Option Solution) : Solution :=
  match structured with
  | some s => s
  | none =>
    match freetext with
    | some s => s
    | none => placeholder_solution

/-! ## Verifier and Orchestrator

`agents/verifier_agent.py` HITL trigger, quoted in
`docs/Source_Code_Documentation.md` section 2.2:

    if final_confidence < self.hitl_threshold:  # 0.70
        return {
            "verdict": "uncertain",
            "hitl_required": True,
            "question": "Please verify this solution..."
        }
-/

/-- The VerificationResult record produced by the Verifier stage. -/
structure VerificationResult where
  verdict : String
  final_confidence : ℚ
  issues : List String
  hitl_required : Bool

/-- The default Verifier confidence threshold (sidebar default `0.70`). -/
def hitl_threshold : ℚ := 7/10

/-- `VerifierAgent.verify`: below `hitl_threshold` the verdict is
`"uncertain"` with `hitl_required = True`; otherwise the solution passes. -/
def VerifierAgent.verify (threshold final_confidence : ℚ) : VerificationResult :=
  if final_confidence < threshold then
    { verdict := "uncertain"
      final_confidence := final_confidence
      issues := []
      hitl_required := true }
  else
    { verdict := "pass"
      final_confidence := final_confidence
      issues := []
      hitl_required := false }

/-- The parsed problem record produced by the Parser stage. -/
structure ProblemRecord where
  problem_text : String
  detected_topic : String
  variable_symbols : List String
  constraints : List String
  needs_clarification : Bool
  clarification_question : Option String

/-- Terminal status of one pipeline run, as exposed at the UI boundary. -/
inductive PipelineStatus where
  | answered
  | clarification_needed
  | escalated
deriving DecidableEq

/-- Outcome of one orchestrated pipeline run: its status, the ordered list of
agent stages actually invoked, the verification record when the Verifier ran,
and whether the Explainer produced an explanation. -/
structure PipelineOutcome where
  status : PipelineStatus
  stages_run : List String
  verification : Option VerificationResult
  explained : Bool

/-- Modelled from the spec: the control flow of `app.py::run_agent_pipeline`
(the docs quote only an abbreviated sketch of it).  Per spec sections 3, 4.3
and 4.6, the Orchestrator short-circuits at the Parser when
`needs_clarification` is set — Router, Solver, Verifier and Explainer are
never invoked — and halts before the Explainer when the Verifier requires
human review, surfacing an escalation instead of an answer.  The
externally-produced stage data (parsed record, aggregated confidence) enter
as parameters. -/
def run_agent_pipeline (threshold : ℚ) (parsed : ProblemRecord)
    (final_confidence : ℚ) : PipelineOutcome :=
  if parsed.needs_clarification then
    { status := .clarification_needed
      stages_run := ["Parser"]
      verification := none
      explained := false }
  else
    let v := VerifierAgent.verify threshold final_confidence
    if v.hitl_required then
      { status := .escalated
        stages_run := ["Parser", "Router", "Solver", "Verifier"]
        verification := some v
        explained := false }
    else
      { status := .answered
        stages_run := ["Parser", "Router", "Solver", "Verifier", "Explainer"]
        verification := some v
        explained := true }

/-! ## Retriever

`rag/retriever.py`, quoted in `docs/Source_Code_Documentation.md`
section 2.4:

    def retrieve(self, query: str, k: int = 5) -> List[Dict]:
        query_vector = self.model.encode([query])
        scores, indices = self.index.search(query_vector, k)
        results = []
        for score, idx in zip(scores[0], indices[0]):
            if score >= self.threshold:  # 0.5
                results.append({
                    "content": self.chunks[idx]["text"],
                    "source": self.chunks[idx]["source"],
                    "score": float(score)
                })
        return results
-/

/-- A stored knowledge-base chunk (`chunks.pkl` entry). -/
structure StoredChunk where
  text : String
  source : String

/-- A chunk as returned by `retrieve`: content, source and the
query-dependent relevance score. -/
structure RetrievedChunk where
  content : String
  source : String
  score : ℚ

/-- The default relevance floor (`self.threshold`). -/
def rag_min_score : ℚ := 1/2

/-- `RAGRetriever.retrieve`, with the external FAISS call
`self.index.search(query_vector, k)` entering as the `hits` parameter — the
ranked `(score, idx)` rows of its top-`k` answer.  The loop keeps exactly the
hits whose score clears `self.threshold` and resolves each kept index in
`self.chunks`. -/
def RAGRetriever.retrieve (chunks : List StoredChunk) (threshold : ℚ)
    (hits : List (ℚ × Nat)) : List RetrievedChunk :=
  (hits.filter (fun h => threshold ≤ h.1)).map
    (fun h =>
      { content := (chunks.getD h.2 ⟨"", ""⟩).text
        source := (chunks.getD h.2 ⟨"", ""⟩).source
        score := h.1 })

/-- The failure-guarded retrieval as performed at the Solver call site
(`docs/Source_Code_Documentation.md` section 5.3): a raised retrieval error
(`none`) degrades to the empty chunk list. -/
def guarded_retrieve (outcome : Option (List RetrievedChunk)) : List RetrievedChunk :=
  match outcome with
  | some chunks => chunks
  | none => []

/-- The Solver's retrieval-coverage sub-score: `0.9 if has_context else 0.3`,
where context exists exactly when some chunk came back. -/
def solver_rag_coverage (chunks : List RetrievedChunk) : ℚ :=
  if chunks.isEmpty then 3/10 else 9/10

/-! ## Memory Store

`memory/memory_store.py` persists solved problems in the SQLite table
(`docs/Source_Code_Documentation.md` section 2.5):

    CREATE TABLE problems (
        id TEXT PRIMARY KEY,
        problem_text TEXT,
        problem_hash TEXT,
        solution TEXT,
        confidence REAL,
        feedback TEXT,
        created_at TIMESTAMP,
        source TEXT
    );
-/

/-- Modelled from the spec: normalization of problem text (spec section 4.2 /
glossary, "a deterministic normalized-content key used to detect
duplicate/near-duplicate problems"); the body of `memory_store.py` is not in
the repository snapshot. -/
def normalize_problem_text (t : String) : String :=
  t.trim.toLower

/-- Modelled from the spec: the content fingerprint (`problem_hash` column) is
a deterministic function of the normalized problem text.  The hash itself is
modelled by the normalized text, an injective stand-in. -/
def fingerprint (t : String) : String :=
  normalize_problem_text t

/-- A row of the `problems` table (audit fields elided). -/
structure MemoryEntry where
  id : Nat
  problem_text : String
  problem_fingerprint : String
  solution : String
  confidence : ℚ
  source_tag : String

/-- The Memory Store state: the `problems` rows in insertion order, plus the
next fresh id. -/
structure MemoryStore where
  entries : List MemoryEntry
  next_id : Nat

/-- Modelled from the spec: `MemoryStore.save_problem` (spec section 4.2,
`save(problem_text, solution, confidence, source_tag) -> id`, "idempotent by
content fingerprint (re-saving identical text updates rather than
duplicates)"); the body of `memory_store.py` is not in the repository
snapshot.  If a row with the incoming fingerprint exists, that row is updated
in place and its id returned; otherwise a fresh row is appended. -/
def MemoryStore.save (st : MemoryStore) (problem_text solution : String)
    (confidence : ℚ) (source_tag : String) : MemoryStore × Nat :=
  match st.entries.find? (fun e => e.problem_fingerprint == fingerprint problem_text) with
  | some e =>
      ({ st with entries := st.entries.map (fun e2 =>
          if e2.id == e.id then
            { e2 with solution := solution, confidence := confidence,
                      source_tag := source_tag }
          else e2) }, e.id)
  | none =>
      ({ entries := st.entries ++
          [MemoryEntry.mk st.next_id problem_text (fingerprint problem_text)
            solution confidence source_tag],
         next_id := st.next_id + 1 }, st.next_id)

/-! ## Helper lemmas -/

theorem aggregate_confidence_eq (r c l v : ℚ) :
    aggregate_confidence r c l v = (r + c + l + v) / 4 := by
  simp [aggregate_confidence, confidence_factors]
  ring_nf

theorem save_of_find_some (st : MemoryStore) (text sol : String) (conf : ℚ)
    (tag : String) (e : MemoryEntry)
    (h : st.entries.find? (fun e2 => e2.problem_fingerprint == fingerprint text) = some e) :
    st.save text sol conf tag = (MemoryStore.mk (st.entries.map (fun e2 =>
      if e2.id == e.id then
        { e2 with solution := sol, confidence := conf, source_tag := tag }
      else e2)) st.next_id, e.id) := by
  simp only [MemoryStore.save, h]

theorem save_of_find_none (st : MemoryStore) (text sol : String) (conf : ℚ)
    (tag : String)
    (h : st.entries.find? (fun e2 => e2.problem_fingerprint == fingerprint text) = none) :
    st.save text sol conf tag =
      (MemoryStore.mk
        (st.entries ++ [MemoryEntry.mk st.next_id text (fingerprint text) sol conf tag])
        (st.next_id + 1), st.next_id) := by
  simp only [MemoryStore.save, h]

theorem save_find (st : MemoryStore) (text sol : String) (conf : ℚ) (tag : String) :
    ∃ e, (st.save text sol conf tag).1.entries.find?
        (fun e2 => e2.problem_fingerprint == fingerprint text) = some e ∧
      e.id = (st.save text sol conf tag).2 := by
  cases h : st.entries.find? (fun e2 => e2.problem_fingerprint == fingerprint text) with
  | none =>
      refine ⟨MemoryEntry.mk st.next_id text (fingerprint text) sol conf tag, ?_, ?_⟩
      · rw [save_of_find_none st text sol conf tag h]
        rw [List.find?_append, h]
        simp [List.find?]
      · rw [save_of_find_none st text sol conf tag h]
  | some e =>
      refine ⟨{ e with solution := sol, confidence := conf, source_tag := tag }, ?_, ?_⟩
      · rw [save_of_find_some st text sol conf tag e h]
        rw [List.find?_map]
        have hfe : ((fun e2 => e2.problem_fingerprint == fingerprint text) ∘
            fun (e2 : MemoryEntry) =>
              if e2.id == e.id then
                { e2 with solution := sol, confidence := conf, source_tag := tag }
              else e2) =
            (fun (e2 : MemoryEntry) => e2.problem_fingerprint == fingerprint text) := by
          funext e2
          simp only [Function.comp]
          split <;> rfl
        rw [hfe, h]
        simp
      · rw [save_of_find_some st text sol conf tag e h]

/-! ## Claim C1 -/

/-- C1 counterexample: the code's aggregation is NOT the weighted mean with
weights retrieval 0.25 / citation 0.20 / generative 0.30 / verification 0.25
that the claim states.  At sub-scores (0, 1, 0, 0) the code computes
`(0+1+0+0)/4 = 1/4`, while the claimed weighted mean gives `0.20`. -/
theorem aggregate_confidence_defies_spec_weights :
    aggregate_confidence 0 1 0 0 = 1/4 ∧
    spec_weighted_confidence 0 1 0 0 = 1/5 ∧
    aggregate_confidence 0 1 0 0 ≠ spec_weighted_confidence 0 1 0 0 := by
  refine ⟨?_, ?_, ?_⟩ <;>
    simp [aggregate_confidence_eq, spec_weighted_confidence] <;> norm_num

/-- C1 (amended): the Verifier's confidence aggregation computes
`final_confidence` as the fixed unweighted arithmetic mean of exactly the four
sub-scores (equal weights 0.25 / 0.25 / 0.25 / 0.25), and it is a pure
function of those four inputs, so identical inputs always reproduce the
identical score. -/
theorem aggregate_confidence_equal_weights (r c l v : ℚ) :
    aggregate_confidence r c l v =
      25/100 * r + 25/100 * c + 25/100 * l + 25/100 * v ∧
    aggregate_confidence r c l v = aggregate_confidence r c l v := by
  refine ⟨?_, rfl⟩
  rw [aggregate_confidence_eq]
  ring

/-! ## Claim C8 -/

/-- C8: the aggregation is monotone in each sub-score separately: holding the
other three fixed, decreasing any one sub-score never increases
`final_confidence`. -/
theorem aggregate_confidence_monotone (r r' c c' l l' v v' : ℚ) :
    (r ≤ r' → aggregate_confidence r c l v ≤ aggregate_confidence r' c l v) ∧
    (c ≤ c' → aggregate_confidence r c l v ≤ aggregate_confidence r c' l v) ∧
    (l ≤ l' → aggregate_confidence r c l v ≤ aggregate_confidence r c l' v) ∧
    (v ≤ v' → aggregate_confidence r c l v ≤ aggregate_confidence r c l v') := by
  simp only [aggregate_confidence_eq]
  refine ⟨fun h => ?_, fun h => ?_, fun h => ?_, fun h => ?_⟩ <;> linarith

/-- Witness for C8 at concrete sub-scores. -/
theorem aggregate_confidence_monotone_witness :
    (0 : ℚ) ≤ 1 ∧
    aggregate_confidence 0 (1/2) (1/2) (1/2) ≤ aggregate_confidence 1 (1/2) (1/2) (1/2) :=
  ⟨by norm_num, (aggregate_confidence_monotone 0 1 (1/2) (1/2) (1/2) (1/2) (1/2) (1/2)).1
    (by norm_num)⟩

/-! ## Claim C5 -/

/-- C5 counterexample: the coercion does not match the claim.  A non-numeric
confidence is coerced to `0.7`, which is not the neutral midpoint `0.5`; an
empty collection cannot be (and is not) reduced to a first element, yielding
`0.7`; and the result is not clamped to a plausible range — a numeric `3/2`
passes through unchanged, above `1`. -/
theorem coerce_llm_conf_defies_spec :
    coerce_llm_conf .other = 7/10 ∧
    coerce_llm_conf .other ≠ 1/2 ∧
    coerce_llm_conf (.coll []) = 7/10 ∧
    coerce_llm_conf (.num (3/2)) = 3/2 ∧
    ¬ coerce_llm_conf (.num (3/2)) ≤ 1 := by
  refine ⟨rfl, ?_, rfl, rfl, ?_⟩ <;> simp [coerce_llm_conf] <;> norm_num

/-- C5 (amended): the coercion is total; a non-empty collection is reduced to
its first element, an empty collection and any non-numeric or missing value
default to `0.7` (not a `0.5` midpoint), and the resulting scalar is used
as-is, without clamping. -/
theorem coerce_llm_conf_behavior (q : ℚ) (xs : List ℚ) :
    coerce_llm_conf (.num q) = q ∧
    coerce_llm_conf (.coll (q :: xs)) = q ∧
    coerce_llm_conf (.coll []) = 7/10 ∧
    coerce_llm_conf .other = 7/10 ∧
    coerce_llm_conf .missing = 7/10 :=
  ⟨rfl, rfl, rfl, rfl, rfl⟩

/-! ## Claim C10 -/

/-- C10: the truthiness guard makes the indexing branch unreachable for empty
collections: the checked coercion (explicit fallible `llm_conf[0]`) never
returns `none` and agrees with the total coercion everywhere; an empty
list/tuple yields the `0.7` default, and a missing field also yields `0.7`,
not a neutral `0.5`. -/
theorem coerce_llm_conf_empty_collection_safe (val : LLMConfValue) :
    coerce_llm_conf_checked val = some (coerce_llm_conf val) ∧
    coerce_llm_conf (.coll []) = 7/10 ∧
    coerce_llm_conf .missing = 7/10 ∧
    coerce_llm_conf .missing ≠ 1/2 := by
  refine ⟨?_, rfl, rfl, by simp [coerce_llm_conf]; norm_num⟩
  cases val with
  | num q => rfl
  | coll xs => cases xs <;> rfl
  | other => rfl
  | missing => rfl

/-! ## Claim C2 -/

/-- C2: whenever the Verifier computes `final_confidence` strictly below the
`hitl_threshold` (default `0.70`), the VerificationResult has verdict
`"uncertain"` and `hitl_required = true`, and the Orchestrator halts before
the Explainer: the run is surfaced as an escalation, the Explainer stage is
not among the stages invoked, and no explanation is produced. -/
theorem hitl_gate_escalates (parsed : ProblemRecord) (conf : ℚ)
    (hconf : conf < hitl_threshold) (hclar : parsed.needs_clarification = false) :
    (VerifierAgent.verify hitl_threshold conf).verdict = "uncertain" ∧
    (VerifierAgent.verify hitl_threshold conf).hitl_required = true ∧
    (run_agent_pipeline hitl_threshold parsed conf).status = .escalated ∧
    "Explainer" ∉ (run_agent_pipeline hitl_threshold parsed conf).stages_run ∧
    (run_agent_pipeline hitl_threshold parsed conf).explained = false := by
  have hv : VerifierAgent.verify hitl_threshold conf =
      { verdict := "uncertain", final_confidence := conf, issues := [],
        hitl_required := true } := by
    simp only [VerifierAgent.verify, if_pos hconf]
  have hp : run_agent_pipeline hitl_threshold parsed conf =
      { status := .escalated, stages_run := ["Parser", "Router", "Solver", "Verifier"],
        verification := some (VerifierAgent.verify hitl_threshold conf),
        explained := false } := by
    simp only [run_agent_pipeline, hclar, Bool.false_eq_true, if_neg, hv, if_pos]
    simp
  rw [hv, hp]
  refine ⟨rfl, rfl, rfl, ?_, rfl⟩
  show "Explainer" ∉ ["Parser", "Router", "Solver", "Verifier"]
  decide

/-- Witness for C2: a concrete unambiguous problem whose aggregate confidence
`1/2` falls below the default threshold. -/
theorem hitl_gate_escalates_witness :
    ((1 : ℚ)/2 < hitl_threshold) ∧
    ((VerifierAgent.verify hitl_threshold (1/2)).verdict = "uncertain" ∧
     (VerifierAgent.verify hitl_threshold (1/2)).hitl_required = true ∧
     (run_agent_pipeline hitl_threshold
        (ProblemRecord.mk "2 + 2" "arithmetic" [] [] false none) (1/2)).status = .escalated ∧
     "Explainer" ∉ (run_agent_pipeline hitl_threshold
        (ProblemRecord.mk "2 + 2" "arithmetic" [] [] false none) (1/2)).stages_run ∧
     (run_agent_pipeline hitl_threshold
        (ProblemRecord.mk "2 + 2" "arithmetic" [] [] false none) (1/2)).explained = false) :=
  ⟨by norm_num [hitl_threshold],
   hitl_gate_escalates (ProblemRecord.mk "2 + 2" "arithmetic" [] [] false none) (1/2)
     (by norm_num [hitl_threshold]) rfl⟩

/-! ## Claim C3 -/

/-- C3: the Solver's fallback cascade is a total function into `Solution`, so
no exception propagates: a parsed structured output is used as-is; on
structured-output failure the free-text extraction is used; and when both
attempts fail the Solver returns the placeholder Solution with
`self_reported_confidence = 0` and the explicit "could not solve" answer, so
the pipeline always completes. -/
theorem solver_fallback_total (s : Solution) (freetext : Option Solution) :
    solve_with_fallback (some s) freetext = s ∧
    solve_with_fallback none (some s) = s ∧
    solve_with_fallback none none = placeholder_solution ∧
    (solve_with_fallback none none).self_reported_confidence = 0 ∧
    (solve_with_fallback none none).answer_text = "could not solve" :=
  ⟨rfl, rfl, rfl, rfl, rfl⟩

/-! ## Claim C4 -/

/-- C4: a ProblemRecord with `needs_clarification = true` short-circuits the
pipeline: the run's status is `clarification_needed` (neither `answered` nor
`escalated`), only the Parser stage ran, Router/Solver/Verifier/Explainer are
never invoked, no verification record exists, and nothing is explained. -/
theorem clarification_short_circuits (threshold : ℚ) (parsed : ProblemRecord)
    (conf : ℚ) (h : parsed.needs_clarification = true) :
    (run_agent_pipeline threshold parsed conf).status = .clarification_needed ∧
    (run_agent_pipeline threshold parsed conf).status ≠ .answered ∧
    (run_agent_pipeline threshold parsed conf).status ≠ .escalated ∧
    (run_agent_pipeline threshold parsed conf).stages_run = ["Parser"] ∧
    "Router" ∉ (run_agent_pipeline threshold parsed conf).stages_run ∧
    "Solver" ∉ (run_agent_pipeline threshold parsed conf).stages_run ∧
    "Verifier" ∉ (run_agent_pipeline threshold parsed conf).stages_run ∧
    "Explainer" ∉ (run_agent_pipeline threshold parsed conf).stages_run ∧
    (run_agent_pipeline threshold parsed conf).verification = none ∧
    (run_agent_pipeline threshold parsed conf).explained = false := by
  have hp : run_agent_pipeline threshold parsed conf =
      { status := .clarification_needed, stages_run := ["Parser"],
        verification := none, explained := false } := by
    simp only [run_agent_pipeline, h, if_pos]
  rw [hp]
  refine ⟨rfl, ?_, ?_, rfl, ?_, ?_, ?_, ?_, rfl, rfl⟩ <;> decide

/-- Witness for C4: a concrete ambiguous record. -/
theorem clarification_short_circuits_witness :
    ((ProblemRecord.mk "do the thing" "other" [] [] true
        (some "What should be solved?")).needs_clarification = true) ∧
    (run_agent_pipeline hitl_threshold
      (ProblemRecord.mk "do the thing" "other" [] [] true
        (some "What should be solved?")) (9/10)).status = .clarification_needed ∧
    "Router" ∉ (run_agent_pipeline hitl_threshold
      (ProblemRecord.mk "do the thing" "other" [] [] true
        (some "What should be solved?")) (9/10)).stages_run :=
  ⟨rfl,
   (clarification_short_circuits hitl_threshold
     (ProblemRecord.mk "do the thing" "other" [] [] true
       (some "What should be solved?")) (9/10) rfl).1,
   (clarification_short_circuits hitl_threshold
     (ProblemRecord.mk "do the thing" "other" [] [] true
       (some "What should be solved?")) (9/10) rfl).2.2.2.2.1⟩

/-! ## Claim C6 -/

/-- C6: every chunk returned by `retrieve` has relevance score at least the
floor (`min_score`, default `0.5`), and the result holds at most `k` chunks —
hits below the floor are dropped, never padded. -/
theorem retrieve_respects_floor_and_k (chunks : List StoredChunk) (threshold : ℚ)
    (hits : List (ℚ × Nat)) (k : Nat) (hk : hits.length ≤ k) :
    (RAGRetriever.retrieve chunks threshold hits).length ≤ k ∧
    ∀ r ∈ RAGRetriever.retrieve chunks threshold hits, threshold ≤ r.score := by
  constructor
  · calc (RAGRetriever.retrieve chunks threshold hits).length
        = (hits.filter (fun h => threshold ≤ h.1)).length :=
          List.length_map _ _
      _ ≤ hits.length := List.length_filter_le _ _
      _ ≤ k := hk
  · intro r hr
    obtain ⟨h, hmem, hfr⟩ := List.mem_map.1 hr
    rw [List.mem_filter] at hmem
    have := of_decide_eq_true hmem.2
    rw [← hfr]
    exact this

/-- Witness for C6: two FAISS hits at the default floor `0.5`, one of which
(score `2/5`) is dropped; the result respects both bounds. -/
theorem retrieve_respects_floor_and_k_witness :
    ([((3 : ℚ)/5, 0), ((2 : ℚ)/5, 0)].length ≤ 2) ∧
    ((RAGRetriever.retrieve [StoredChunk.mk "chunk" "algebra.md"] rag_min_score
        [((3 : ℚ)/5, 0), ((2 : ℚ)/5, 0)]).length ≤ 2 ∧
     ∀ r ∈ RAGRetriever.retrieve [StoredChunk.mk "chunk" "algebra.md"] rag_min_score
        [((3 : ℚ)/5, 0), ((2 : ℚ)/5, 0)], rag_min_score ≤ r.score) :=
  ⟨by simp,
   retrieve_respects_floor_and_k [StoredChunk.mk "chunk" "algebra.md"] rag_min_score
     [((3 : ℚ)/5, 0), ((2 : ℚ)/5, 0)] 2 (by simp)⟩

/-! ## Claim C7 -/

/-- C7: a failed retrieval (index unavailable or embedding error, `none`)
degrades to the empty chunk sequence instead of an error, a successful
retrieval passes through unchanged, and the Solver treats the empty sequence
as a valid lower-confidence input: its retrieval-coverage sub-score drops to
`0.3` rather than failing. -/
theorem rag_failure_yields_empty (cs : List RetrievedChunk) :
    guarded_retrieve none = [] ∧
    guarded_retrieve (some cs) = cs ∧
    solver_rag_coverage (guarded_retrieve none) = 3/10 :=
  ⟨rfl, rfl, rfl⟩

/-! ## Claim C9 -/

/-- C9: Memory Store `save` is idempotent by content fingerprint: saving the
same problem text twice returns the same entry id both times and the second
save leaves the number of stored entries unchanged (it updates instead of
duplicating); and the fingerprint is exactly a function of the normalized
problem text. -/
theorem memory_save_idempotent (st : MemoryStore) (text sol1 sol2 tag1 tag2 : String)
    (conf1 conf2 : ℚ) :
    ((st.save text sol1 conf1 tag1).1.save text sol2 conf2 tag2).2
        = (st.save text sol1 conf1 tag1).2 ∧
    ((st.save text sol1 conf1 tag1).1.save text sol2 conf2 tag2).1.entries.length
        = (st.save text sol1 conf1 tag1).1.entries.length ∧
    fingerprint text = normalize_problem_text text := by
  obtain ⟨e, hfind, hid⟩ := save_find st text sol1 conf1 tag1
  rw [save_of_find_some _ text sol2 conf2 tag2 e hfind]
  exact ⟨hid, List.length_map _ _, rfl⟩

end MathMentor
